import Mathlib

/-!
Shallow embedding of the session-scoped authenticated data-access layer of the
promise-erp repository: the NextAuth jwt callback (src/lib/auth.js), the group
server actions (groupService: getGroupsCached, getGroups, addGroup,
getGroupById, updateGroup, deleteGroup) and the course server actions
(courseService: getCoursesCached, getCourses, createCourse, getCourseById,
updateCourse, DeleteCourse).

Modelling conventions:
* An async function's outcome is `Except JsError α`: `.ok v` is a fulfilled
  promise (a returned value), `.error e` is a rejected promise (a thrown
  error or a `Promise.reject` value reaching the caller).
* The HTTP transport is a function `Request → FetchOutcome` supplied as a
  parameter; `FetchOutcome.netError m` is `fetch` rejecting with an `Error`
  whose message is `m` (network-level failure), `FetchOutcome.response` is a
  response with its status, statusText and the outcome of `res.json()`
  (`BodyParse.parseFail m` is `res.json()` rejecting with message `m`).
* Side effects are recorded in `Effects`: every `fetch` performed is appended
  to `requests`, every `updateTag` call to `invalidatedTags`.
* JavaScript values appearing as filter parameters are modelled by `JsValue`
  with JS truthiness; JSON bodies by `ApiBody`, whose `Option` fields model
  absent/undefined fields (`jsOr` is the `x || fallback` idiom on them);
  the opaque `data` payload of a body is an uninterpreted `Nat`.
* Timestamps are integers (milliseconds); `JwtToken.expiresAt = none` models
  a null/undefined/empty `expiresAt`, `some t` a value whose parsed `Date`
  has timestamp `t`.
-/

namespace PromiseErp

/-- Default API base URL (`process.env.NEXT_PUBLIC_API_URL` fallback). -/
def API_BASE : String := "http://127.0.0.1:8000/api/v1"

/-- A JavaScript value as it appears in a filter-parameter record. -/
inductive JsValue where
  | vNull
  | vUndefined
  | vStr (s : String)
  | vNum (n : Int)
  | vBool (b : Bool)
deriving DecidableEq

/-- JS truthiness of a `JsValue` (`if (params[key])`). -/
def JsValue.truthy : JsValue → Bool
  | .vNull => false
  | .vUndefined => false
  | .vStr s => s ≠ ""
  | .vNum n => n ≠ 0
  | .vBool b => b

/-- JS string coercion (`v.toString()` / `searchParams.append`). -/
def JsValue.toStr : JsValue → String
  | .vNull => "null"
  | .vUndefined => "undefined"
  | .vStr s => s
  | .vNum n => toString n
  | .vBool b => if b then "true" else "false"

/-- A parsed JSON response body: the fields the data-access layer inspects
(`success`, `message`, `code`, `errors`) plus an uninterpreted `data`
payload. `none` models an absent/undefined field. -/
structure ApiBody where
  success : Bool := false
  message : Option String := none
  code : Option Int := none
  errors : Option (List (String × List String)) := none
  data : Option Nat := none
deriving DecidableEq

/-- A value reaching a rejected promise: either an `Error` object carrying a
message, or a raw non-`Error` value (`Promise.reject(data)`). -/
inductive JsError where
  | err (msg : String)
  | value (b : ApiBody)
deriving DecidableEq

/-- One outbound HTTP request as the transport sees it. -/
structure Request where
  method : String
  url : String
  query : List (String × String) := []
  bearer : String := ""
  formBody : List (String × String) := []
deriving DecidableEq

/-- Outcome of `res.json()` on a received response. -/
inductive BodyParse where
  | parseFail (msg : String)
  | parsed (b : ApiBody)
deriving DecidableEq

/-- Outcome of one `fetch` call. -/
inductive FetchOutcome where
  | netError (msg : String)
  | response (status : Nat) (statusText : String) (body : BodyParse)
deriving DecidableEq

/-- Recorded side effects of one operation: the fetches performed and the
cache tags invalidated via `updateTag`. -/
structure Effects where
  requests : List Request := []
  invalidatedTags : List String := []
deriving DecidableEq

/-- `res.ok`: status in the 2xx range. -/
def resOk (status : Nat) : Bool := 200 ≤ status && status < 300

/-- The JS `x || fallback` idiom on a string field that may be absent. -/
def jsOr : Option String → String → String
  | some s, d => if s = "" then d else s
  | none, d => d

/-- Truthiness of `session?.accessToken` (`if (!token)`). -/
def tokenTruthy : Option String → Bool
  | some s => s ≠ ""
  | none => false

/-- A non-`Error` thrown value is replaced by the fallback message when a
catch block rethrows `new Error(error instanceof Error ? error.message : fallback)`. -/
def rethrowAsError (fallback : String) : JsError → JsError
  | .err m => .err m
  | .value _ => .err fallback

/-! ### Credential resolver: the NextAuth jwt callback (src/lib/auth.js) -/

/-- The JWT token record threaded through the NextAuth jwt callback. -/
structure JwtToken where
  id : Option String := none
  name : Option String := none
  email : Option String := none
  roles : Option String := none
  permissions : List String := []
  accessToken : Option String := none
  expiresAt : Option Int := none
deriving DecidableEq

/-- The user object handed to the jwt callback right after `authorize`. -/
structure AuthUser where
  id : String
  name : String
  email : String
  roles : Option String := none
  permissions : List String := []
  accessToken : String
  expiresAt : Option Int := none
deriving DecidableEq

/-- The jwt callback: merge the freshly authorized user into the token when
present, then null `accessToken` when `expiresAt` is truthy and its parsed
date is strictly before `now`. -/
def jwtCallback (user : Option AuthUser) (token : JwtToken) (now : Int) : JwtToken :=
  let token : JwtToken :=
    match user with
    | some u =>
        { token with
          id := some u.id, name := some u.name, email := some u.email,
          roles := u.roles, permissions := u.permissions,
          accessToken := some u.accessToken, expiresAt := u.expiresAt }
    | none => token
  match token.expiresAt with
  | some t => if t < now then { token with accessToken := none } else token
  | none => token

/-! ### Group service (server actions) -/

/-- The form payload of addGroup/updateGroup; the layer never inspects it. -/
structure GroupFormData where
  group_name : String := ""
  division_id : Option Int := none
  district_id : Option Int := none
  branch_id : Option Int := none
  lm_course_id : Option Int := none
  lm_batch_id : Option Int := none
  is_active : Option Bool := none
deriving DecidableEq

/-- Query entries built by getGroupsCached's `for (const key in params)` loop:
keep an entry unless its value is undefined or null, coercing to string. -/
def groupsFilterQuery : List (String × JsValue) → List (String × String)
  | [] => []
  | (k, v) :: rest =>
      if v = JsValue.vUndefined ∨ v = JsValue.vNull then groupsFilterQuery rest
      else (k, v.toStr) :: groupsFilterQuery rest

/-- getGroupsCached: build the query (page first, then filters), fetch, and
return `res.json()` with no status check; fetch or parse rejections are
rethrown as an `Error` with the same message. -/
def getGroupsCached (page : Int) (token : String) (params : List (String × JsValue))
    (transport : Request → FetchOutcome) : Except JsError ApiBody × Effects :=
  let req : Request :=
    { method := "GET", url := API_BASE ++ "/groups",
      query := ("page", toString page) :: groupsFilterQuery params,
      bearer := token }
  match transport req with
  | .netError m => (.error (.err m), { requests := [req] })
  | .response _ _ (.parseFail m) => (.error (.err m), { requests := [req] })
  | .response _ _ (.parsed body) => (.ok body, { requests := [req] })

/-- getGroups: resolve the session token, throw when it is falsy, else
delegate to getGroupsCached; its catch rethrows errors with the same message
(non-`Error` values would get "Failed to get groups"). -/
def getGroups (page : Int) (sessionToken : Option String) (params : List (String × JsValue))
    (transport : Request → FetchOutcome) : Except JsError ApiBody × Effects :=
  if tokenTruthy sessionToken = false then
    (.error (.err "No valid session or access token found."), {})
  else
    let r := getGroupsCached page (sessionToken.getD "") params transport
    (match r.1 with
     | .error e => .error (rethrowAsError "Failed to get groups" e)
     | .ok b => .ok b, r.2)

/-- addGroup: with a falsy token return a 401-shaped result (no fetch); else
POST, parse, and on non-ok status return a failure result carrying the body's
`errors`; on ok status invalidate "groups-list" and return the body; a thrown
`Error` is recovered into a code-500 result keeping its message. -/
def addGroup (sessionToken : Option String) (groupData : GroupFormData)
    (transport : Request → FetchOutcome) : Except JsError ApiBody × Effects :=
  if tokenTruthy sessionToken = false then
    (.ok { success := false, message := some "No valid session or access token found.",
           errors := some [], code := some 401 }, {})
  else
    let req : Request :=
      { method := "POST", url := API_BASE ++ "/groups", bearer := sessionToken.getD "" }
    match transport req with
    | .netError m =>
        (.ok { success := false, message := some (jsOr (some m) "An unexpected error occurred."),
               code := some 500 }, { requests := [req] })
    | .response _ _ (.parseFail m) =>
        (.ok { success := false, message := some (jsOr (some m) "An unexpected error occurred."),
               code := some 500 }, { requests := [req] })
    | .response status _ (.parsed body) =>
        if resOk status = false then
          (.ok { success := false, message := some (jsOr body.message "Failed to add group."),
                 errors := body.errors, code := some (Int.ofNat status) },
           { requests := [req] })
        else
          (.ok body, { requests := [req], invalidatedTags := ["groups-list"] })

/-- getGroupById: throw on a falsy token; GET, throw on non-ok status with the
statusText, else return `res.json()`; rejections keep their message. -/
def getGroupById (sessionToken : Option String) (id : String)
    (transport : Request → FetchOutcome) : Except JsError ApiBody × Effects :=
  if tokenTruthy sessionToken = false then
    (.error (.err "No valid session or access token found."), {})
  else
    let req : Request :=
      { method := "GET", url := API_BASE ++ "/groups/" ++ id, bearer := sessionToken.getD "" }
    match transport req with
    | .netError m => (.error (.err m), { requests := [req] })
    | .response status statusText bp =>
        if resOk status = false then
          (.error (.err ("Failed to fetch group: " ++ statusText)), { requests := [req] })
        else
          match bp with
          | .parseFail m => (.error (.err m), { requests := [req] })
          | .parsed body => (.ok body, { requests := [req] })

/-- updateGroup: with a falsy token return a 401-shaped result (no fetch);
else PATCH, and on non-ok status return a failure result carrying the body's
`errors`; on ok status invalidate "groups-list" and return the body; any
thrown error is swallowed into a fixed generic code-500 result. -/
def updateGroup (sessionToken : Option String) (id : String) (groupData : GroupFormData)
    (transport : Request → FetchOutcome) : Except JsError ApiBody × Effects :=
  if tokenTruthy sessionToken = false then
    (.ok { success := false, message := some "No valid session or access token found.",
           code := some 401 }, {})
  else
    let req : Request :=
      { method := "PATCH", url := API_BASE ++ "/groups/" ++ id, bearer := sessionToken.getD "" }
    match transport req with
    | .netError _ =>
        (.ok { success := false, message := some "An unexpected error occurred.",
               code := some 500 }, { requests := [req] })
    | .response _ _ (.parseFail _) =>
        (.ok { success := false, message := some "An unexpected error occurred.",
               code := some 500 }, { requests := [req] })
    | .response status _ (.parsed body) =>
        if resOk status = false then
          (.ok { success := false, message := some (jsOr body.message "Failed to update group."),
                 errors := body.errors, code := some (Int.ofNat status) },
           { requests := [req] })
        else
          (.ok body, { requests := [req], invalidatedTags := ["groups-list"] })

/-- deleteGroup: throw "Unauthorized" on a falsy token; DELETE, parse the body
and — with no status check — invalidate "groups-list" and return the parsed
body; fetch/parse rejections are rethrown with the same message. -/
def deleteGroup (sessionToken : Option String) (id : Int)
    (transport : Request → FetchOutcome) : Except JsError ApiBody × Effects :=
  if tokenTruthy sessionToken = false then
    (.error (.err "Unauthorized"), {})
  else
    let req : Request :=
      { method := "DELETE", url := API_BASE ++ "/groups/" ++ toString id,
        bearer := sessionToken.getD "" }
    match transport req with
    | .netError m => (.error (.err m), { requests := [req] })
    | .response _ _ (.parseFail m) => (.error (.err m), { requests := [req] })
    | .response _ _ (.parsed body) =>
        (.ok body, { requests := [req], invalidatedTags := ["groups-list"] })

/-! ### Course service (server actions) -/

/-- Query entries built by getCoursesCached's `Object.keys(params).forEach`
loop: keep an entry only when its value is truthy. -/
def coursesFilterQuery : List (String × JsValue) → List (String × String)
  | [] => []
  | (k, v) :: rest =>
      if v.truthy then (k, v.toStr) :: coursesFilterQuery rest
      else coursesFilterQuery rest

/-- getCoursesCached: build the query (page first, then truthy filters),
fetch, throw on non-ok status with "Failed to fetch courses: {statusText}",
else return `res.json()`; a fetch rejection is rethrown with its message (or
a generic one when that message is empty). -/
def getCoursesCached (page : Int) (token : String) (params : List (String × JsValue))
    (transport : Request → FetchOutcome) : Except JsError ApiBody × Effects :=
  let req : Request :=
    { method := "GET", url := API_BASE ++ "/courses",
      query := ("page", toString page) :: coursesFilterQuery params,
      bearer := token }
  match transport req with
  | .netError m =>
      (.error (.err (jsOr (some m) "An unknown error occurred while fetching courses.")),
       { requests := [req] })
  | .response status statusText bp =>
      if resOk status = false then
        (.error (.err ("Failed to fetch courses: " ++ statusText)), { requests := [req] })
      else
        match bp with
        | .parseFail m => (.error (.err m), { requests := [req] })
        | .parsed body => (.ok body, { requests := [req] })

/-- getCourses: throw on a falsy token, else delegate to getCoursesCached. -/
def getCourses (page : Int) (sessionToken : Option String) (params : List (String × JsValue))
    (transport : Request → FetchOutcome) : Except JsError ApiBody × Effects :=
  if tokenTruthy sessionToken = false then
    (.error (.err "No valid session or access token found."), {})
  else
    getCoursesCached page (sessionToken.getD "") params transport

/-- createCourse: throw on a falsy token; POST the multipart form, parse, and
on status 422 with a truthy `errors` reject with the raw body
(`return Promise.reject(data)` — the rejection bypasses the catch); on other
non-ok statuses throw with the body's message; on ok status invalidate
"courses-list" and return the body; `Error` rejections keep their message. -/
def createCourse (sessionToken : Option String) (formData : List (String × String))
    (transport : Request → FetchOutcome) : Except JsError ApiBody × Effects :=
  if tokenTruthy sessionToken = false then
    (.error (.err "No valid session or access token found."), {})
  else
    let req : Request :=
      { method := "POST", url := API_BASE ++ "/courses", bearer := sessionToken.getD "",
        formBody := formData }
    match transport req with
    | .netError m => (.error (.err m), { requests := [req] })
    | .response _ _ (.parseFail m) => (.error (.err m), { requests := [req] })
    | .response status _ (.parsed body) =>
        if resOk status = false then
          if status = 422 ∧ body.errors.isSome then
            (.error (.value body), { requests := [req] })
          else
            (.error (.err (jsOr body.message
                ("Failed to create course. Status: " ++ toString status))),
             { requests := [req] })
        else
          (.ok body, { requests := [req], invalidatedTags := ["courses-list"] })

/-- getCourseById: throw on a falsy token; GET, throw on non-ok status with
the statusText, else return `res.json()`; rejections keep their message. -/
def getCourseById (sessionToken : Option String) (id : String)
    (transport : Request → FetchOutcome) : Except JsError ApiBody × Effects :=
  if tokenTruthy sessionToken = false then
    (.error (.err "No valid session or access token found."), {})
  else
    let req : Request :=
      { method := "GET", url := API_BASE ++ "/courses/" ++ id, bearer := sessionToken.getD "" }
    match transport req with
    | .netError m => (.error (.err m), { requests := [req] })
    | .response status statusText bp =>
        if resOk status = false then
          (.error (.err ("Failed to fetch course: " ++ statusText)), { requests := [req] })
        else
          match bp with
          | .parseFail m => (.error (.err m), { requests := [req] })
          | .parsed body => (.ok body, { requests := [req] })

/-- updateCourse: same contract as createCourse, except the form body gets
`_method = PATCH` appended and the request is a POST to the record's URL. -/
def updateCourse (sessionToken : Option String) (id : String)
    (formData : List (String × String))
    (transport : Request → FetchOutcome) : Except JsError ApiBody × Effects :=
  if tokenTruthy sessionToken = false then
    (.error (.err "No valid session or access token found."), {})
  else
    let req : Request :=
      { method := "POST", url := API_BASE ++ "/courses/" ++ id,
        bearer := sessionToken.getD "",
        formBody := formData ++ [("_method", "PATCH")] }
    match transport req with
    | .netError m => (.error (.err m), { requests := [req] })
    | .response _ _ (.parseFail m) => (.error (.err m), { requests := [req] })
    | .response status _ (.parsed body) =>
        if resOk status = false then
          if status = 422 ∧ body.errors.isSome then
            (.error (.value body), { requests := [req] })
          else
            (.error (.err (jsOr body.message
                ("Failed to update course. Status: " ++ toString status))),
             { requests := [req] })
        else
          (.ok body, { requests := [req], invalidatedTags := ["courses-list"] })

/-- DeleteCourse: throw on a falsy token; DELETE, and on non-ok status throw
"Message: {body.message}" (falling back when the body does not parse); on ok
status invalidate "courses-list" first and then return `res.json()`, so a
parse rejection still leaves the tag invalidated. -/
def DeleteCourse (sessionToken : Option String) (id : Int)
    (transport : Request → FetchOutcome) : Except JsError ApiBody × Effects :=
  if tokenTruthy sessionToken = false then
    (.error (.err "No valid session or access token found."), {})
  else
    let req : Request :=
      { method := "DELETE", url := API_BASE ++ "/courses/" ++ toString id,
        bearer := sessionToken.getD "" }
    match transport req with
    | .netError m => (.error (.err m), { requests := [req] })
    | .response status _ bp =>
        if resOk status = false then
          let errMsg :=
            match bp with
            | .parsed body => jsOr body.message "Failed to delete course"
            | .parseFail _ => "Failed to delete course"
          (.error (.err ("Message: " ++ errMsg)), { requests := [req] })
        else
          match bp with
          | .parsed body =>
              (.ok body, { requests := [req], invalidatedTags := ["courses-list"] })
          | .parseFail m =>
              (.error (.err m), { requests := [req], invalidatedTags := ["courses-list"] })

/-! ### Concrete bodies used by counterexamples and witnesses -/

/-- A 422 validation body with one field error, as the remote API sends it. -/
def body422 : ApiBody :=
  { success := false, message := some "The given data was invalid.",
    errors := some [("title", ["required"])] }

/-- A parsed non-success (500) body. -/
def failBody : ApiBody :=
  { success := false, message := some "Server Error", code := some 500, data := some 7 }

/-! ### C1: token expiry boundary in the jwt callback -/

/-- C1 counterexample: with `expiresAt` exactly equal to `now` (timestamp
1000), the jwt callback keeps the access token instead of nulling it, because
the source compares with strict `<`; the claim says this token is Absent. -/
theorem jwtCallback_keeps_token_at_exact_expiry :
    (jwtCallback none { accessToken := some "tok", expiresAt := some 1000 } 1000).accessToken
      = some "tok" := rfl

/-- C1 (amended): the jwt callback nulls `accessToken` exactly when
`expiresAt` is strictly before `now`; at `expiresAt = now` and one
millisecond before expiry the token is returned unchanged, one millisecond
past expiry it is Absent. -/
theorem jwt_expiry_boundary (tk : JwtToken) (t now : Int) (h : tk.expiresAt = some t) :
    (t < now → (jwtCallback none tk now).accessToken = none) ∧
    (now ≤ t → jwtCallback none tk now = tk) := by
  constructor
  · intro hlt
    simp [jwtCallback, h, hlt]
  · intro hle
    simp [jwtCallback, h, not_lt.mpr hle]

/-- Witness for C1's amended theorem at expiry timestamp 1000: one
millisecond after expiry the token is nulled, one millisecond before it is
returned unchanged. -/
theorem jwt_expiry_boundary_witness :
    (jwtCallback none { accessToken := some "tok", expiresAt := some 1000 } 1001).accessToken
        = none ∧
    jwtCallback none { accessToken := some "tok", expiresAt := some 1000 } 999
        = { accessToken := some "tok", expiresAt := some 1000 } :=
  ⟨(jwt_expiry_boundary { accessToken := some "tok", expiresAt := some 1000 } 1000 1001
      rfl).1 (by decide),
   (jwt_expiry_boundary { accessToken := some "tok", expiresAt := some 1000 } 1000 999
      rfl).2 (by decide)⟩

/-! ### C2: unauthenticated short-circuit -/

/-- C2: with a falsy session token, every operation of both resource clients
yields its unauthenticated outcome with empty effects — in particular no
request ever reaches the transport. -/
theorem unauthenticated_short_circuit (st : Option String) (h : tokenTruthy st = false)
    (transport : Request → FetchOutcome) (page : Int) (params : List (String × JsValue))
    (gid cid : String) (gidN cidN : Int) (g : GroupFormData) (fd : List (String × String)) :
    getGroups page st params transport
        = (.error (.err "No valid session or access token found."), {}) ∧
    getGroupById st gid transport
        = (.error (.err "No valid session or access token found."), {}) ∧
    addGroup st g transport
        = (.ok { success := false, message := some "No valid session or access token found.",
                 errors := some [], code := some 401 }, {}) ∧
    updateGroup st gid g transport
        = (.ok { success := false, message := some "No valid session or access token found.",
                 code := some 401 }, {}) ∧
    deleteGroup st gidN transport = (.error (.err "Unauthorized"), {}) ∧
    getCourses page st params transport
        = (.error (.err "No valid session or access token found."), {}) ∧
    getCourseById st cid transport
        = (.error (.err "No valid session or access token found."), {}) ∧
    createCourse st fd transport
        = (.error (.err "No valid session or access token found."), {}) ∧
    updateCourse st cid fd transport
        = (.error (.err "No valid session or access token found."), {}) ∧
    DeleteCourse st cidN transport
        = (.error (.err "No valid session or access token found."), {}) := by
  simp [getGroups, getGroupById, addGroup, updateGroup, deleteGroup,
        getCourses, getCourseById, createCourse, updateCourse, DeleteCourse, h]

/-- Witness for C2 at a missing session with a transport that would fail the
whole operation if it were ever reached. -/
theorem unauthenticated_short_circuit_witness :
    tokenTruthy none = false ∧
    getGroups 1 none [] (fun _ => .netError "down")
      = (.error (.err "No valid session or access token found."), {}) :=
  ⟨rfl,
   (unauthenticated_short_circuit none rfl (fun _ => .netError "down") 1 [] "1" "1" 1 1
      {} []).1⟩

/-! ### C3: 422 validation outcomes -/

/-- C3 counterexample: createCourse answered 422 with a field-error body does
not return a value at all — it rejects with the raw body
(`return Promise.reject(data)`), so its outcome is a throw, contradicting the
claim that every create/update returns a ValidationError value rather than
throwing. -/
theorem createCourse_rejects_on_422 :
    (createCourse (some "tok") []
        (fun _ => .response 422 "Unprocessable Content" (.parsed body422))).1
      = .error (.value body422) := rfl

/-- C3 (amended): on a 422 answer carrying a field-error map, the group
create/update return a result value holding that map, while the course
create/update propagate the map by rejecting with the parsed body. -/
theorem validation_error_handling (st : Option String) (h : tokenTruthy st = true)
    (statusText : String) (body : ApiBody) (es : List (String × List String))
    (he : body.errors = some es) (gid cid : String) (g : GroupFormData)
    (fd : List (String × String)) :
    (addGroup st g (fun _ => .response 422 statusText (.parsed body))).1
      = .ok { success := false, message := some (jsOr body.message "Failed to add group."),
              errors := some es, code := some 422 } ∧
    (updateGroup st gid g (fun _ => .response 422 statusText (.parsed body))).1
      = .ok { success := false, message := some (jsOr body.message "Failed to update group."),
              errors := some es, code := some 422 } ∧
    (createCourse st fd (fun _ => .response 422 statusText (.parsed body))).1
      = .error (.value body) ∧
    (updateCourse st cid fd (fun _ => .response 422 statusText (.parsed body))).1
      = .error (.value body) := by
  have h422 : resOk 422 = false := rfl
  simp [addGroup, updateGroup, createCourse, updateCourse, h, he, h422]

/-- Witness for C3's amended theorem on a concrete 422 body with
`errors = {title: ["required"]}`. -/
theorem validation_error_handling_witness :
    tokenTruthy (some "tok") = true ∧ body422.errors = some [("title", ["required"])] ∧
    (addGroup (some "tok") {} (fun _ => .response 422 "U" (.parsed body422))).1
      = .ok { success := false, message := some "The given data was invalid.",
              errors := some [("title", ["required"])], code := some 422 } :=
  ⟨rfl, rfl, by
    have hmain := (validation_error_handling (some "tok") rfl "U" body422
        [("title", ["required"])] rfl "1" "1" {} []).1
    simpa [body422, jsOr] using hmain⟩

/-! ### C4: filter omission in list queries -/

/-- C4 counterexample: the groups list sends an empty-string filter value —
`{search: ""}` produces the query entry `("search", "")` — contradicting the
claim that empty-string entries are omitted from every list call. -/
theorem groups_list_sends_empty_filter :
    (getGroupsCached 1 "tok" [("search", JsValue.vStr "")]
        (fun _ => .netError "down")).2.requests
      = [{ method := "GET", url := API_BASE ++ "/groups",
           query := [("page", "1"), ("search", "")], bearer := "tok" }] := rfl

/-! ### C5: list behaviour on non-success status -/

/-- C5 counterexample: the groups list performs no status check — a 500
response whose body parses is returned as if it were a successful listing,
contradicting the claim that every list call fails on non-success status. -/
theorem groups_list_returns_error_body :
    resOk 500 = false ∧
    (getGroupsCached 1 "tok" []
        (fun _ => .response 500 "Internal Server Error" (.parsed failBody))).1
      = .ok failBody :=
  ⟨rfl, rfl⟩

/-- C5 (amended): on a non-success status whose body parses, the courses list
throws "Failed to fetch courses: {statusText}", while the groups list returns
the parsed body unchecked. -/
theorem list_non_success_handling (page : Int) (tok : String)
    (params : List (String × JsValue)) (status : Nat) (statusText : String)
    (body : ApiBody) (h : resOk status = false) :
    (getCoursesCached page tok params
        (fun _ => .response status statusText (.parsed body))).1
      = .error (.err ("Failed to fetch courses: " ++ statusText)) ∧
    (getGroupsCached page tok params
        (fun _ => .response status statusText (.parsed body))).1
      = .ok body := by
  simp [getCoursesCached, getGroupsCached, h]

/-- Witness for C5's amended theorem at a concrete 500 response. -/
theorem list_non_success_handling_witness :
    resOk 500 = false ∧
    (getCoursesCached 1 "tok" []
        (fun _ => .response 500 "Internal Server Error" (.parsed failBody))).1
      = .error (.err ("Failed to fetch courses: " ++ "Internal Server Error")) :=
  ⟨rfl, (list_non_success_handling 1 "tok" [] 500 "Internal Server Error" failBody rfl).1⟩

/-! ### C6: cache-tag invalidation on mutations -/

/-- C6 counterexample: deleteGroup invalidates "groups-list" even when the
response status is a non-success 500, contradicting the claim that a failed
mutation leaves the tag uninvalidated. -/
theorem deleteGroup_invalidates_on_failure :
    resOk 500 = false ∧
    (deleteGroup (some "tok") 7
        (fun _ => .response 500 "Internal Server Error" (.parsed failBody))).2.invalidatedTags
      = ["groups-list"] :=
  ⟨rfl, rfl⟩

/-! ### C7: network-level failure handling -/

/-- C7 counterexample: a transport throw in addGroup is recovered with code
500 (not the claimed sentinel 0), and in getGroups it escapes the operation
as a thrown Error rather than being recovered into a result. -/
theorem network_failure_not_code_zero :
    (addGroup (some "tok") {} (fun _ => .netError "fetch failed")).1
      = .ok { success := false, message := some "fetch failed", code := some 500 } ∧
    (getGroups 1 (some "tok") [] (fun _ => .netError "fetch failed")).1
      = .error (.err "fetch failed") :=
  ⟨rfl, rfl⟩

/-- C7 (amended): a transport throw with message `m` is recovered into a
returned code-500 Failure result only by addGroup (which keeps `m`) and
updateGroup (which replaces it with a generic message); every other operation
rethrows an Error carrying `m`, which escapes the operation's boundary; no
operation produces a code-0 result. -/
theorem network_failure_handling (st : Option String) (h : tokenTruthy st = true)
    (m : String) (hm : m ≠ "") (page : Int) (params : List (String × JsValue))
    (gid cid : String) (gidN cidN : Int) (g : GroupFormData) (fd : List (String × String)) :
    (addGroup st g (fun _ => .netError m)).1
      = .ok { success := false, message := some m, code := some 500 } ∧
    (updateGroup st gid g (fun _ => .netError m)).1
      = .ok { success := false, message := some "An unexpected error occurred.",
              code := some 500 } ∧
    (getGroups page st params (fun _ => .netError m)).1 = .error (.err m) ∧
    (getGroupById st gid (fun _ => .netError m)).1 = .error (.err m) ∧
    (deleteGroup st gidN (fun _ => .netError m)).1 = .error (.err m) ∧
    (getCourses page st params (fun _ => .netError m)).1 = .error (.err m) ∧
    (getCourseById st cid (fun _ => .netError m)).1 = .error (.err m) ∧
    (createCourse st fd (fun _ => .netError m)).1 = .error (.err m) ∧
    (updateCourse st cid fd (fun _ => .netError m)).1 = .error (.err m) ∧
    (DeleteCourse st cidN (fun _ => .netError m)).1 = .error (.err m) := by
  simp [addGroup, updateGroup, getGroups, getGroupsCached, getGroupById, deleteGroup,
        getCourses, getCoursesCached, getCourseById, createCourse, updateCourse,
        DeleteCourse, rethrowAsError, jsOr, h, hm]

/-- Witness for C7's amended theorem at a concrete network failure. -/
theorem network_failure_handling_witness :
    tokenTruthy (some "tok") = true ∧ "boom" ≠ "" ∧
    (updateGroup (some "tok") "9" {} (fun _ => .netError "boom")).1
      = .ok { success := false, message := some "An unexpected error occurred.",
              code := some 500 } :=
  ⟨rfl, by decide, (network_failure_handling (some "tok") rfl "boom" (by decide) 1 []
      "9" "9" 9 9 {} []).2.1⟩

/-! ### C9: updateGroup's catch swallows the real error -/

/-- C9: whatever error is thrown inside updateGroup's try block — a fetch
rejection or a body-parse rejection, with any message `m` — the catch returns
the fixed generic message "An unexpected error occurred." with code 500,
discarding `m` entirely. -/
theorem updateGroup_swallows_error (st : Option String) (h : tokenTruthy st = true)
    (gid : String) (g : GroupFormData) (m : String) (status : Nat) (statusText : String) :
    (updateGroup st gid g (fun _ => .netError m)).1
      = .ok { success := false, message := some "An unexpected error occurred.",
              code := some 500 } ∧
    (updateGroup st gid g (fun _ => .response status statusText (.parseFail m))).1
      = .ok { success := false, message := some "An unexpected error occurred.",
              code := some 500 } := by
  simp [updateGroup, h]

/-- Witness for C9 at a concrete thrown message that gets discarded. -/
theorem updateGroup_swallows_error_witness :
    tokenTruthy (some "tok") = true ∧
    (updateGroup (some "tok") "3" {} (fun _ => .netError "connection reset")).1
      = .ok { success := false, message := some "An unexpected error occurred.",
              code := some 500 } :=
  ⟨rfl, (updateGroup_swallows_error (some "tok") rfl "3" {} "connection reset" 200 "OK").1⟩

/-! ### C10: inconsistent unauthenticated surfacing -/

/-- C10: with a falsy session token, addGroup and updateGroup return a normal
`{success: false, code: 401}` result, while every other operation rejects
with a thrown Error ("No valid session or access token found.", or
"Unauthorized" for deleteGroup). -/
theorem unauthenticated_surface_inconsistency (st : Option String)
    (h : tokenTruthy st = false) (transport : Request → FetchOutcome) (page : Int)
    (params : List (String × JsValue)) (gid cid : String) (gidN cidN : Int)
    (g : GroupFormData) (fd : List (String × String)) :
    (addGroup st g transport).1
      = .ok { success := false, message := some "No valid session or access token found.",
              errors := some [], code := some 401 } ∧
    (updateGroup st gid g transport).1
      = .ok { success := false, message := some "No valid session or access token found.",
              code := some 401 } ∧
    (getGroups page st params transport).1
      = .error (.err "No valid session or access token found.") ∧
    (getGroupById st gid transport).1
      = .error (.err "No valid session or access token found.") ∧
    (deleteGroup st gidN transport).1 = .error (.err "Unauthorized") ∧
    (getCourses page st params transport).1
      = .error (.err "No valid session or access token found.") ∧
    (getCourseById st cid transport).1
      = .error (.err "No valid session or access token found.") ∧
    (createCourse st fd transport).1
      = .error (.err "No valid session or access token found.") ∧
    (updateCourse st cid fd transport).1
      = .error (.err "No valid session or access token found.") ∧
    (DeleteCourse st cidN transport).1
      = .error (.err "No valid session or access token found.") := by
  simp [getGroups, getGroupById, addGroup, updateGroup, deleteGroup,
        getCourses, getCourseById, createCourse, updateCourse, DeleteCourse, h]

/-- Witness for C10 at an empty-string access token (falsy in JS). -/
theorem unauthenticated_surface_inconsistency_witness :
    tokenTruthy (some "") = false ∧
    (deleteGroup (some "") 4 (fun _ => .netError "down")).1 = .error (.err "Unauthorized") :=
  ⟨rfl, (unauthenticated_surface_inconsistency (some "") rfl (fun _ => .netError "down")
      1 [] "4" "4" 4 4 {} []).2.2.2.2.1⟩

/-! ### Helper lemmas shared by the remaining claims -/

/-- The groups query loop keeps exactly the entries that are neither
undefined nor null, in order, coerced to strings. -/
theorem groupsFilterQuery_eq_filter (params : List (String × JsValue)) :
    groupsFilterQuery params
      = (params.filter
          (fun kv => !(kv.2 == JsValue.vUndefined || kv.2 == JsValue.vNull))).map
          (fun kv => (kv.1, kv.2.toStr)) := by
  induction params with
  | nil => rfl
  | cons kv rest ih =>
      obtain ⟨k, v⟩ := kv
      cases v <;> simp [groupsFilterQuery, ih, List.filter_cons]

/-- The courses query loop keeps exactly the truthy entries, in order,
coerced to strings. -/
theorem coursesFilterQuery_eq_filter (params : List (String × JsValue)) :
    coursesFilterQuery params
      = (params.filter (fun kv => kv.2.truthy)).map (fun kv => (kv.1, kv.2.toStr)) := by
  induction params with
  | nil => rfl
  | cons kv rest ih =>
      obtain ⟨k, v⟩ := kv
      cases hv : v.truthy <;> simp [coursesFilterQuery, hv, ih, List.filter_cons]

/-- Whatever the transport answers, getGroupsCached performs exactly its one
GET request with the page-then-filters query. -/
theorem getGroupsCached_requests (page : Int) (tok : String)
    (params : List (String × JsValue)) (transport : Request → FetchOutcome) :
    (getGroupsCached page tok params transport).2.requests
      = [{ method := "GET", url := API_BASE ++ "/groups",
           query := ("page", toString page) :: groupsFilterQuery params,
           bearer := tok }] := by
  simp only [getGroupsCached]
  repeat' split
  all_goals rfl

/-- Whatever the transport answers, getCoursesCached performs exactly its one
GET request with the page-then-truthy-filters query. -/
theorem getCoursesCached_requests (page : Int) (tok : String)
    (params : List (String × JsValue)) (transport : Request → FetchOutcome) :
    (getCoursesCached page tok params transport).2.requests
      = [{ method := "GET", url := API_BASE ++ "/courses",
           query := ("page", toString page) :: coursesFilterQuery params,
           bearer := tok }] := by
  simp only [getCoursesCached]
  repeat' split
  all_goals rfl

/-- With a truthy token, updateCourse performs exactly one POST to the
record's URL whose multipart body ends in the appended `_method = PATCH`. -/
theorem updateCourse_requests (st : Option String) (h : tokenTruthy st = true)
    (cid : String) (fd : List (String × String)) (transport : Request → FetchOutcome) :
    (updateCourse st cid fd transport).2.requests
      = [{ method := "POST", url := API_BASE ++ "/courses/" ++ cid,
           bearer := st.getD "", formBody := fd ++ [("_method", "PATCH")] }] := by
  simp only [updateCourse, h]
  repeat' split
  all_goals first | rfl | simp_all

/-- With a truthy token, updateGroup performs exactly one PATCH request to
the record's URL. -/
theorem updateGroup_requests (st : Option String) (h : tokenTruthy st = true)
    (gid : String) (g : GroupFormData) (transport : Request → FetchOutcome) :
    (updateGroup st gid g transport).2.requests
      = [{ method := "PATCH", url := API_BASE ++ "/groups/" ++ gid,
           bearer := st.getD "" }] := by
  simp only [updateGroup, h]
  repeat' split
  all_goals first | rfl | simp_all

/-! ### C4 (amended): filter omission policy -/

/-- C4 (amended): the groups list omits exactly the undefined and null filter
values (an empty string is sent as an empty-valued parameter), while the
courses list omits every falsy value; the spec's example
`{search: "", level: undefined, division_id: "3"}` holds for the courses
query builder. -/
theorem filter_omission_policy (page : Int) (tok : String)
    (params : List (String × JsValue)) (transport : Request → FetchOutcome) :
    (getGroupsCached page tok params transport).2.requests.map Request.query
      = [("page", toString page) ::
          (params.filter
            (fun kv => !(kv.2 == JsValue.vUndefined || kv.2 == JsValue.vNull))).map
            (fun kv => (kv.1, kv.2.toStr))] ∧
    (getCoursesCached page tok params transport).2.requests.map Request.query
      = [("page", toString page) ::
          (params.filter (fun kv => kv.2.truthy)).map (fun kv => (kv.1, kv.2.toStr))] ∧
    coursesFilterQuery
        [("search", JsValue.vStr ""), ("level", JsValue.vUndefined),
         ("division_id", JsValue.vStr "3")]
      = [("division_id", "3")] := by
  refine ⟨?_, ?_, rfl⟩
  · rw [getGroupsCached_requests]
    simp [groupsFilterQuery_eq_filter]
  · rw [getCoursesCached_requests]
    simp [coursesFilterQuery_eq_filter]

/-! ### C6 (amended): when each mutation invalidates its list tag -/

/-- C6 (amended): addGroup, updateGroup, createCourse and updateCourse
invalidate their list tag exactly when the response body parses and the
status is a success; DeleteCourse invalidates exactly when the status is a
success, even when the body then fails to parse; deleteGroup invalidates
whenever the body parses, regardless of status; network failures (and parse
failures, except for DeleteCourse on a success status) never invalidate. -/
theorem mutation_invalidation (st : Option String) (h : tokenTruthy st = true)
    (status : Nat) (statusText : String) (body : ApiBody) (m : String)
    (gid cid : String) (gidN cidN : Int) (g : GroupFormData)
    (fd : List (String × String)) :
    ((addGroup st g (fun _ => .response status statusText (.parsed body))).2.invalidatedTags
        = if resOk status then ["groups-list"] else []) ∧
    ((updateGroup st gid g
        (fun _ => .response status statusText (.parsed body))).2.invalidatedTags
        = if resOk status then ["groups-list"] else []) ∧
    ((deleteGroup st gidN
        (fun _ => .response status statusText (.parsed body))).2.invalidatedTags
        = ["groups-list"]) ∧
    ((createCourse st fd
        (fun _ => .response status statusText (.parsed body))).2.invalidatedTags
        = if resOk status then ["courses-list"] else []) ∧
    ((updateCourse st cid fd
        (fun _ => .response status statusText (.parsed body))).2.invalidatedTags
        = if resOk status then ["courses-list"] else []) ∧
    ((DeleteCourse st cidN
        (fun _ => .response status statusText (.parsed body))).2.invalidatedTags
        = if resOk status then ["courses-list"] else []) ∧
    ((DeleteCourse st cidN
        (fun _ => .response status statusText (.parseFail m))).2.invalidatedTags
        = if resOk status then ["courses-list"] else []) ∧
    ((addGroup st g (fun _ => .netError m)).2.invalidatedTags = []) ∧
    ((updateGroup st gid g (fun _ => .netError m)).2.invalidatedTags = []) ∧
    ((deleteGroup st gidN (fun _ => .netError m)).2.invalidatedTags = []) ∧
    ((createCourse st fd (fun _ => .netError m)).2.invalidatedTags = []) ∧
    ((updateCourse st cid fd (fun _ => .netError m)).2.invalidatedTags = []) ∧
    ((DeleteCourse st cidN (fun _ => .netError m)).2.invalidatedTags = []) ∧
    ((addGroup st g
        (fun _ => .response status statusText (.parseFail m))).2.invalidatedTags = []) ∧
    ((updateGroup st gid g
        (fun _ => .response status statusText (.parseFail m))).2.invalidatedTags = []) ∧
    ((deleteGroup st gidN
        (fun _ => .response status statusText (.parseFail m))).2.invalidatedTags = []) ∧
    ((createCourse st fd
        (fun _ => .response status statusText (.parseFail m))).2.invalidatedTags = []) ∧
    ((updateCourse st cid fd
        (fun _ => .response status statusText (.parseFail m))).2.invalidatedTags = []) := by
  cases hst : resOk status <;>
    simp [addGroup, updateGroup, deleteGroup, createCourse, updateCourse, DeleteCourse,
          h, hst] <;>
    (repeat' split) <;> simp_all

/-- Witness for C6's amended theorem at a concrete failed delete that still
invalidates. -/
theorem mutation_invalidation_witness :
    tokenTruthy (some "tok") = true ∧
    (deleteGroup (some "tok") 7
        (fun _ => .response 500 "ISE" (.parsed failBody))).2.invalidatedTags
      = ["groups-list"] :=
  ⟨rfl, (mutation_invalidation (some "tok") rfl 500 "ISE" failBody "m" "7" "7" 7 7
      {} []).2.2.1⟩

/-! ### C8: update transport shapes -/

/-- C8: the multipart course update issues a POST to {base}/courses/{id}
whose form body carries the override field `_method = PATCH`, while the JSON
group update issues a PATCH to {base}/groups/{id}. -/
theorem update_transport_shape (st : Option String) (h : tokenTruthy st = true)
    (cid gid : String) (fd : List (String × String)) (g : GroupFormData)
    (transport : Request → FetchOutcome) :
    (updateCourse st cid fd transport).2.requests
      = [{ method := "POST", url := API_BASE ++ "/courses/" ++ cid,
           bearer := st.getD "", formBody := fd ++ [("_method", "PATCH")] }] ∧
    (updateGroup st gid g transport).2.requests
      = [{ method := "PATCH", url := API_BASE ++ "/groups/" ++ gid,
           bearer := st.getD "" }] :=
  ⟨updateCourse_requests st h cid fd transport, updateGroup_requests st h gid g transport⟩

/-- Witness for C8 at concrete identifiers and a concrete transport. -/
theorem update_transport_shape_witness :
    tokenTruthy (some "tok") = true ∧
    (updateCourse (some "tok") "5" [("title", "T")] (fun _ => .netError "down")).2.requests
      = [{ method := "POST", url := API_BASE ++ "/courses/" ++ "5",
           bearer := "tok", formBody := [("title", "T"), ("_method", "PATCH")] }] :=
  ⟨rfl, (update_transport_shape (some "tok") rfl "5" "5" [("title", "T")] {}
      (fun _ => .netError "down")).1⟩

end PromiseErp
